import Mathlib

/-!
Shallow embedding of `src/onlyhw.py`, a Telegram bot relaying free-text
messages to the OpenAI chat-completion API while tracking a per-user token
budget in the in-memory dictionary `user_contexts`.

Modelling conventions:
* A conversation turn (a dict `{"role": r, "content": c}` in the source,
  with the braces as Python syntax) is a `Turn`.
* A user's entry `{"context": [...], "tokens": n}` is a `Session`; Python
  integers are unbounded, and the budget can go negative, so `tokens : Int`.
* The dictionary `user_contexts` is an association list `Store` preserving
  Python-dict insertion-order semantics: updating an existing key keeps its
  position, a fresh key is appended at the end.
* The outcome of one `client.chat.completions.create` call is an
  `ApiResult`: either a reply text plus `usage.total_tokens`, or a raised
  exception classified as one of the three named openai exception kinds or
  any other `Exception`.
* Each Python handler becomes a pure function from the pre-state and the
  message data (plus, for the free-text handler, the API outcome) to the
  post-state and the reply text.  A `*_try` variant additionally models the
  handler's outermost `try/except`, with the platform send
  (`message.reply`) as the exception source: when the send raises, the
  exception is logged and swallowed and nothing is delivered.
-/

/-- One role-tagged message turn, `{"role": role, "content": content}` in the
source (braces being Python dict syntax). -/
structure Turn where
  role : String
  content : String
deriving DecidableEq, Repr

/-- A user's entry in `user_contexts`: conversation history and remaining
token budget (source lines 47, 113, 124, 128). -/
structure Session where
  context : List Turn
  tokens : Int
deriving DecidableEq, Repr

/-- The global dictionary `user_contexts` (source line 33), as an ordered
association list from user id to session. -/
abbrev Store := List (Nat × Session)

/-- Dictionary lookup: `user_contexts[uid]` / `uid in user_contexts`. -/
def Store.lookup : Store → Nat → Option Session
  | [], _ => none
  | (k, v) :: rest, uid => if k = uid then some v else Store.lookup rest uid

/-- Dictionary assignment `user_contexts[uid] = s`: replaces the value at an
existing key in place, appends a fresh key at the end (Python dict
insertion-order semantics). -/
def Store.set : Store → Nat → Session → Store
  | [], uid, s => [(uid, s)]
  | (k, v) :: rest, uid, s =>
      if k = uid then (uid, s) :: rest else (k, v) :: Store.set rest uid s

/-- Reply of `/start` (source line 52). -/
def startReply : String := "Привет! Я бот-пират. Чем могу помочь?"

/-- Success reply of `/tokens` (source line 66). -/
def tokensReply : String := "Ваши токены пополнены до 1000."

/-- Success reply of `/clean` (source line 83). -/
def cleanReply : String := "Контекст очищен."

/-- Error reply of `/tokens` and `/clean` for an unknown user (source
lines 69 and 86). -/
def userNotFoundReply : String := "Ошибка: пользователь не найден."

/-- Reply of the free-text handler when the user is unknown or out of budget
(source line 100). -/
def outOfTokensReply : String := "У вас закончились токены. Используйте /tokens для пополнения."

/-- Fixed system persona prepended to every completion request (source
line 118). -/
def systemPersona : String := "Ты - бот-пират. Отвечай как пират."

/-- Apology returned by the `except openai.APIError` clause (source
line 135). -/
def apiErrorReply : String := "Извините, произошла ошибка при обращении к API. Попробуйте позже."

/-- Apology in the body of the `except openai.RateLimitError` clause (source
line 138). -/
def rateLimitReply : String := "Извините, достигнут лимит запросов. Попробуйте позже."

/-- Apology in the body of the `except openai.AuthenticationError` clause
(source line 141). -/
def authErrorReply : String := "Извините, произошла ошибка аутентификации. Обратитесь к администратору."

/-- Apology returned by the final `except Exception` clause (source
line 144). -/
def unexpectedErrorReply : String := "Извините, произошла неожиданная ошибка. Попробуйте позже."

/-- Classification of an exception raised by the completion call:
the three named openai kinds, or any other Python `Exception`. -/
inductive ApiException where
  | apiError
  | rateLimitError
  | authenticationError
  | otherError
deriving DecidableEq, Repr

/-- Whether the exception matches an `except openai.APIError` clause.  In the
openai Python library, `RateLimitError` and `AuthenticationError` are
subclasses of `APIError` (both derive `APIStatusError`, which derives
`APIError`), so the clause matches all three named kinds. -/
def matchesAPIError : ApiException → Bool
  | .apiError => true
  | .rateLimitError => true
  | .authenticationError => true
  | .otherError => false

/-- Whether the exception matches an `except openai.RateLimitError` clause. -/
def matchesRateLimit : ApiException → Bool
  | .rateLimitError => true
  | _ => false

/-- Whether the exception matches an `except openai.AuthenticationError`
clause. -/
def matchesAuthentication : ApiException → Bool
  | .authenticationError => true
  | _ => false

/-- The `except` chain of `generate_response` (source lines 133-144), tried
in textual order as Python does: `APIError` first, then `RateLimitError`,
then `AuthenticationError`, then `Exception`. -/
def exceptChainReply (e : ApiException) : String :=
  if matchesAPIError e then apiErrorReply
  else if matchesRateLimit e then rateLimitReply
  else if matchesAuthentication e then authErrorReply
  else unexpectedErrorReply

/-- Outcome of one `client.chat.completions.create` call (source
lines 115-121): a reply text with its reported `usage.total_tokens`, or a
raised exception. -/
inductive ApiResult where
  | ok (content : String) (totalTokens : Nat)
  | exn (e : ApiException)
deriving DecidableEq, Repr

/-- Result of `generate_response`: the post-state of `user_contexts`, the
returned string, and whether the completion API was actually called. -/
structure GenResult where
  store : Store
  reply : String
  apiCalled : Bool
deriving DecidableEq, Repr

/-- `generate_response` (source lines 110-144).  The user turn is appended
to the stored history (line 113) before the API call; on success the
assistant turn is appended (line 124) and the budget decremented by
`usage.total_tokens` (lines 127-128); a raised exception leaves the already
appended user turn in place and is answered by the `except` chain.  If the
user id is absent, line 113 raises `KeyError` before any API call, caught by
the final `except Exception` clause. -/
def generate_response (store : Store) (uid : Nat) (msg : String) (api : ApiResult) : GenResult :=
  match Store.lookup store uid with
  | none => ⟨store, unexpectedErrorReply, false⟩
  | some s =>
      let s1 : Session := ⟨s.context ++ [⟨"user", msg⟩], s.tokens⟩
      let store1 := Store.set store uid s1
      match api with
      | .ok content totalTokens =>
          let s2 : Session :=
            ⟨s1.context ++ [⟨"assistant", content⟩], s1.tokens - totalTokens⟩
          ⟨Store.set store1 uid s2, content, true⟩
      | .exn e => ⟨store1, exceptChainReply e, true⟩

/-- Result of a handler body: the post-state and the text passed to
`message.reply`. -/
structure HandlerResult where
  store : Store
  reply : String
deriving DecidableEq, Repr

/-- Body of `start_command` (source lines 43-52): a fresh user is registered
with empty history and budget 1000; an existing user is left unchanged;
either way the greeting is sent. -/
def start_command (store : Store) (uid : Nat) : HandlerResult :=
  match Store.lookup store uid with
  | none => ⟨Store.set store uid ⟨[], 1000⟩, startReply⟩
  | some _ => ⟨store, startReply⟩

/-- Body of `tokens_command` (source lines 60-69): a known user's budget is
set to 1000; an unknown user gets the error reply and no state change. -/
def tokens_command (store : Store) (uid : Nat) : HandlerResult :=
  match Store.lookup store uid with
  | some s => ⟨Store.set store uid ⟨s.context, 1000⟩, tokensReply⟩
  | none => ⟨store, userNotFoundReply⟩

/-- Body of `clean_command` (source lines 77-86): a known user's history is
emptied, budget untouched; an unknown user gets the error reply and no state
change. -/
def clean_command (store : Store) (uid : Nat) : HandlerResult :=
  match Store.lookup store uid with
  | some s => ⟨Store.set store uid ⟨[], s.tokens⟩, cleanReply⟩
  | none => ⟨store, userNotFoundReply⟩

/-- Result of the free-text handler body: post-state, text passed to
`message.reply`, and whether the completion API was called. -/
structure MsgResult where
  store : Store
  reply : String
  apiCalled : Bool
deriving DecidableEq, Repr

/-- Body of `handle_message` (source lines 94-106): an unknown user or one
with budget ≤ 0 gets the out-of-tokens reply and no API call (lines 98-101);
otherwise the reply is whatever `generate_response` returns. -/
def handle_message (store : Store) (uid : Nat) (msg : String) (api : ApiResult) : MsgResult :=
  match Store.lookup store uid with
  | none => ⟨store, outOfTokensReply, false⟩
  | some s =>
      if s.tokens ≤ 0 then ⟨store, outOfTokensReply, false⟩
      else
        let r := generate_response store uid msg api
        ⟨r.store, r.reply, r.apiCalled⟩

/-- Outermost `try/except` of `start_command` (lines 42, 53-54) with the
platform send as the exception source: when `message.reply` raises, the
exception is logged and swallowed, nothing is delivered, and the state
changes already made persist. -/
def start_command_try (store : Store) (uid : Nat) (sendRaises : Bool) : Store × Option String :=
  let r := start_command store uid
  (r.store, if sendRaises then none else some r.reply)

/-- Outermost `try/except` of `tokens_command` (lines 59, 70-71), as in
`start_command_try`. -/
def tokens_command_try (store : Store) (uid : Nat) (sendRaises : Bool) : Store × Option String :=
  let r := tokens_command store uid
  (r.store, if sendRaises then none else some r.reply)

/-- Outermost `try/except` of `clean_command` (lines 76, 87-88), as in
`start_command_try`. -/
def clean_command_try (store : Store) (uid : Nat) (sendRaises : Bool) : Store × Option String :=
  let r := clean_command store uid
  (r.store, if sendRaises then none else some r.reply)

/-- Outermost `try/except` of `handle_message` (lines 93, 107-108), as in
`start_command_try`: a raising `message.reply` is caught and swallowed, with
the mutations `generate_response` already made left in place. -/
def handle_message_try (store : Store) (uid : Nat) (msg : String) (api : ApiResult) (sendRaises : Bool) : Store × Option String :=
  let r := handle_message store uid msg api
  (r.store, if sendRaises then none else some r.reply)

/-- Looking up the key just set yields the value just set. -/
theorem Store.lookup_set (store : Store) (uid : Nat) (s : Session) :
    Store.lookup (Store.set store uid s) uid = some s := by
  induction store with
  | nil => simp [Store.set, Store.lookup]
  | cons kv rest ih =>
      by_cases h : kv.1 = uid
      · simp [Store.set, Store.lookup, h]
      · simp [Store.set, Store.lookup, h, ih]

/-- Setting the same key twice keeps only the second value. -/
theorem Store.set_set (store : Store) (uid : Nat) (s t : Session) :
    Store.set (Store.set store uid s) uid t = Store.set store uid t := by
  induction store with
  | nil => simp [Store.set]
  | cons kv rest ih =>
      by_cases h : kv.1 = uid
      · simp [Store.set, h]
      · simp [Store.set, h, ih]

/-- Claim C1: for every registered user, a successful completion appends
exactly two turns to the history — the user turn with the message, then the
assistant turn with the API reply — and decreases the budget by exactly the
reported total token usage (the difference is taken in `Int`, so the
resulting budget may be negative). -/
theorem successful_completion_appends_two_turns_and_charges
    (store : Store) (uid : Nat) (msg content : String) (n : Nat) (s : Session)
    (h : Store.lookup store uid = some s) :
    generate_response store uid msg (.ok content n)
      = ⟨Store.set store uid
            ⟨s.context ++ [⟨"user", msg⟩, ⟨"assistant", content⟩], s.tokens - n⟩,
         content, true⟩ := by
  simp [generate_response, h, Store.set_set]

/-- Witness for C1 at a concrete input where the resulting budget is
negative. -/
theorem successful_completion_appends_two_turns_and_charges_witness :
    generate_response [(7, ⟨[], 1⟩)] 7 "эй" (.ok "Арр!" 50)
      = ⟨[(7, ⟨[⟨"user", "эй"⟩, ⟨"assistant", "Арр!"⟩], -49⟩)], "Арр!", true⟩
    ∧ (-49 : Int) < 0 :=
  ⟨(successful_completion_appends_two_turns_and_charges
      [(7, ⟨[], 1⟩)] 7 "эй" "Арр!" 50 ⟨[], 1⟩ rfl).trans (by decide),
   by decide⟩

/-- Claim C2: a free-text message from a user whose session exists with
budget ≤ 0 gets the fixed out-of-tokens reply, no API call is made, and the
store is unchanged. -/
theorem out_of_budget_message_blocked (store : Store) (uid : Nat) (msg : String)
    (api : ApiResult) (s : Session) (h : Store.lookup store uid = some s)
    (hz : s.tokens ≤ 0) :
    handle_message store uid msg api = ⟨store, outOfTokensReply, false⟩ := by
  simp [handle_message, h, hz]

/-- Witness for C2 at a concrete session with budget 0. -/
theorem out_of_budget_message_blocked_witness :
    handle_message [(7, ⟨[⟨"user", "а"⟩], 0⟩)] 7 "эй" (.ok "Арр!" 30)
      = ⟨[(7, ⟨[⟨"user", "а"⟩], 0⟩)], outOfTokensReply, false⟩ :=
  out_of_budget_message_blocked [(7, ⟨[⟨"user", "а"⟩], 0⟩)] 7 "эй" (.ok "Арр!" 30)
    ⟨[⟨"user", "а"⟩], 0⟩ rfl (by decide)

/-- Claim C3 exhibits a code bug: because `RateLimitError` and
`AuthenticationError` subclass `APIError` in the openai library and the
`except openai.APIError` clause comes first (line 133), both specific error
kinds are answered with the generic API-error apology; the clauses at
lines 136-141 with their distinct strings are unreachable. -/
theorem rate_limit_and_auth_errors_get_generic_apology :
    (generate_response [(7, ⟨[], 100⟩)] 7 "эй" (.exn .rateLimitError)).reply = apiErrorReply
  ∧ (generate_response [(7, ⟨[], 100⟩)] 7 "эй" (.exn .authenticationError)).reply = apiErrorReply
  ∧ apiErrorReply ≠ rateLimitReply
  ∧ apiErrorReply ≠ authErrorReply := by
  refine ⟨rfl, rfl, ?_, ?_⟩ <;> decide

/-- Claim C4: `/start` registers an unknown user with empty history and
budget 1000, and leaves the store unchanged for a known user; either way the
greeting is sent. -/
theorem start_creates_or_preserves_session (store : Store) (uid : Nat) :
    (Store.lookup store uid = none →
        start_command store uid = ⟨Store.set store uid ⟨[], 1000⟩, startReply⟩)
  ∧ (∀ s, Store.lookup store uid = some s →
        start_command store uid = ⟨store, startReply⟩) := by
  constructor
  · intro h; simp [start_command, h]
  · intro s h; simp [start_command, h]

/-- Witness for C4: a fresh user and an existing user, concretely. -/
theorem start_creates_or_preserves_session_witness :
    start_command [] 7 = ⟨[(7, ⟨[], 1000⟩)], startReply⟩
  ∧ start_command [(7, ⟨[⟨"user", "а"⟩], 5⟩)] 7
      = ⟨[(7, ⟨[⟨"user", "а"⟩], 5⟩)], startReply⟩ :=
  ⟨((start_creates_or_preserves_session [] 7).1 rfl).trans (by decide),
   (start_creates_or_preserves_session [(7, ⟨[⟨"user", "а"⟩], 5⟩)] 7).2
     ⟨[⟨"user", "а"⟩], 5⟩ rfl⟩

/-- Claim C5: `/tokens` sets a known user's budget to exactly 1000 keeping
the history, and for an unknown user replies with the error and changes
nothing. -/
theorem tokens_resets_budget_only_for_known (store : Store) (uid : Nat) :
    (∀ s, Store.lookup store uid = some s →
        tokens_command store uid = ⟨Store.set store uid ⟨s.context, 1000⟩, tokensReply⟩)
  ∧ (Store.lookup store uid = none →
        tokens_command store uid = ⟨store, userNotFoundReply⟩) := by
  constructor
  · intro s h; simp [tokens_command, h]
  · intro h; simp [tokens_command, h]

/-- Witness for C5: a known user with a drained budget and an unknown
user, concretely. -/
theorem tokens_resets_budget_only_for_known_witness :
    tokens_command [(7, ⟨[⟨"user", "а"⟩], -3⟩)] 7
      = ⟨[(7, ⟨[⟨"user", "а"⟩], 1000⟩)], tokensReply⟩
  ∧ tokens_command [] 7 = ⟨[], userNotFoundReply⟩ :=
  ⟨((tokens_resets_budget_only_for_known [(7, ⟨[⟨"user", "а"⟩], -3⟩)] 7).1
      ⟨[⟨"user", "а"⟩], -3⟩ rfl).trans (by decide),
   (tokens_resets_budget_only_for_known [] 7).2 rfl⟩

/-- Claim C6: `/clean` empties a known user's history leaving the budget
unchanged, and for an unknown user replies with the error and changes
nothing. -/
theorem clean_empties_history_only_for_known (store : Store) (uid : Nat) :
    (∀ s, Store.lookup store uid = some s →
        clean_command store uid = ⟨Store.set store uid ⟨[], s.tokens⟩, cleanReply⟩)
  ∧ (Store.lookup store uid = none →
        clean_command store uid = ⟨store, userNotFoundReply⟩) := by
  constructor
  · intro s h; simp [clean_command, h]
  · intro h; simp [clean_command, h]

/-- Witness for C6: a known user with history and an unknown user,
concretely. -/
theorem clean_empties_history_only_for_known_witness :
    clean_command [(7, ⟨[⟨"user", "а"⟩, ⟨"assistant", "б"⟩], 42⟩)] 7
      = ⟨[(7, ⟨[], 42⟩)], cleanReply⟩
  ∧ clean_command [] 7 = ⟨[], userNotFoundReply⟩ :=
  ⟨((clean_empties_history_only_for_known
      [(7, ⟨[⟨"user", "а"⟩, ⟨"assistant", "б"⟩], 42⟩)] 7).1
      ⟨[⟨"user", "а"⟩, ⟨"assistant", "б"⟩], 42⟩ rfl).trans (by decide),
   (clean_empties_history_only_for_known [] 7).2 rfl⟩

/-- Counterexample to claim C7 as stated: a first free-text message from a
user with no session does not create one — the store stays empty and the
lookup still fails afterwards. -/
theorem first_message_creates_no_session :
    handle_message [] 7 "эй" (.ok "Арр!" 10) = ⟨[], outOfTokensReply, false⟩
  ∧ Store.lookup (handle_message [] 7 "эй" (.ok "Арр!" 10)).store 7 = none := by
  refine ⟨rfl, ?_⟩
  decide

/-- Amended C7: a free-text message from a user with no existing session is
answered with the fixed out-of-tokens reply, performs no API call and
creates no session (the store is unchanged); only `/start` registers a
user. -/
theorem unknown_user_message_blocked (store : Store) (uid : Nat)
    (msg : String) (api : ApiResult) (h : Store.lookup store uid = none) :
    handle_message store uid msg api = ⟨store, outOfTokensReply, false⟩ := by
  simp [handle_message, h]

/-- Witness for amended C7 on the empty store. -/
theorem unknown_user_message_blocked_witness :
    handle_message [] 9 "эй" (.exn .otherError) = ⟨[], outOfTokensReply, false⟩ :=
  unknown_user_message_blocked [] 9 "эй" (.exn .otherError) rfl

/-- Counterexample to claim C8 as stated: starting from budget 1, a
successful completion reported as 50 tokens leaves the recorded budget at
-49, negative immediately after the completion is recorded. -/
theorem budget_negative_after_successful_completion :
    Store.lookup (generate_response [(7, ⟨[], 1⟩)] 7 "эй" (.ok "Арр!" 50)).store 7
      = some ⟨[⟨"user", "эй"⟩, ⟨"assistant", "Арр!"⟩], -49⟩
  ∧ (-49 : Int) < 0 := by
  refine ⟨?_, ?_⟩ <;> decide

/-- Amended C8: the budget may be negative immediately after a successful
completion is recorded; the invariant that does hold is that whenever the
free-text handler makes a completion call at all, the user's budget was
strictly positive at the moment of the call (a non-positive budget blocks
the message first). -/
theorem api_call_implies_positive_budget (store : Store) (uid : Nat)
    (msg : String) (api : ApiResult)
    (h : (handle_message store uid msg api).apiCalled = true) :
    ∃ s, Store.lookup store uid = some s ∧ 0 < s.tokens := by
  unfold handle_message at h
  cases hl : Store.lookup store uid with
  | none => rw [hl] at h; simp at h
  | some s =>
      rw [hl] at h
      by_cases ht : s.tokens ≤ 0
      · simp [ht] at h
      · exact ⟨s, rfl, by omega⟩

/-- Witness for amended C8: a concrete run in which the API is called. -/
theorem api_call_implies_positive_budget_witness :
    ∃ s, Store.lookup [(7, ⟨[], 5⟩)] 7 = some s ∧ 0 < s.tokens :=
  api_call_implies_positive_budget [(7, ⟨[], 5⟩)] 7 "эй" (.ok "Арр!" 2) (by decide)

/-- Counterexample to claim C9 as stated: an unexpected (non-openai)
exception during response generation does produce a user-facing message —
the fixed generic apology is returned by `generate_response` and delivered
by `handle_message`. -/
theorem unexpected_generation_error_replies :
    (handle_message [(7, ⟨[], 100⟩)] 7 "эй" (.exn .otherError)).reply
      = unexpectedErrorReply
  ∧ (handle_message_try [(7, ⟨[], 100⟩)] 7 "эй" (.exn .otherError) false).2
      = some unexpectedErrorReply := by
  refine ⟨?_, ?_⟩ <;> decide

/-- Amended C9: an exception raised while sending the reply in any of the
four handlers is caught by the handler's outermost `try/except` and
silently swallowed (nothing is delivered); but an unexpected exception
raised during response generation is caught inside `generate_response` and
answered with the fixed generic apology, which is delivered to the user. -/
theorem send_errors_swallowed_generation_errors_answered
    (store : Store) (uid : Nat) (msg : String) (api : ApiResult) (s : Session)
    (h : Store.lookup store uid = some s) (ht : 0 < s.tokens) :
    ((start_command_try store uid true).2 = none
      ∧ (tokens_command_try store uid true).2 = none
      ∧ (clean_command_try store uid true).2 = none
      ∧ (handle_message_try store uid msg api true).2 = none)
  ∧ (handle_message_try store uid msg (.exn .otherError) false).2
      = some unexpectedErrorReply := by
  constructor
  · exact ⟨rfl, rfl, rfl, rfl⟩
  · have ht' : ¬ s.tokens ≤ 0 := by omega
    simp [handle_message_try, handle_message, h, ht', generate_response,
      exceptChainReply, matchesAPIError, matchesRateLimit, matchesAuthentication]

/-- Witness for amended C9 on a concrete registered user. -/
theorem send_errors_swallowed_generation_errors_answered_witness :
    ((start_command_try [(7, ⟨[], 100⟩)] 7 true).2 = none
      ∧ (tokens_command_try [(7, ⟨[], 100⟩)] 7 true).2 = none
      ∧ (clean_command_try [(7, ⟨[], 100⟩)] 7 true).2 = none
      ∧ (handle_message_try [(7, ⟨[], 100⟩)] 7 "эй" (.ok "Арр!" 2) true).2 = none)
  ∧ (handle_message_try [(7, ⟨[], 100⟩)] 7 "эй" (.exn .otherError) false).2
      = some unexpectedErrorReply :=
  send_errors_swallowed_generation_errors_answered
    [(7, ⟨[], 100⟩)] 7 "эй" (.ok "Арр!" 2) ⟨[], 100⟩ rfl (by decide)

/-- Claim C10: when the completion call raises any of the four exception
kinds, the budget is unchanged and the history has grown by exactly the one
user turn appended before the call — the error path does not roll it
back. -/
theorem failed_completion_keeps_budget_appends_user_turn
    (store : Store) (uid : Nat) (msg : String) (e : ApiException) (s : Session)
    (h : Store.lookup store uid = some s) :
    generate_response store uid msg (.exn e)
      = ⟨Store.set store uid ⟨s.context ++ [⟨"user", msg⟩], s.tokens⟩,
         exceptChainReply e, true⟩ := by
  simp [generate_response, h]

/-- Witness for C10 at a concrete rate-limit failure. -/
theorem failed_completion_keeps_budget_appends_user_turn_witness :
    generate_response [(7, ⟨[⟨"user", "а"⟩], 100⟩)] 7 "эй" (.exn .rateLimitError)
      = ⟨[(7, ⟨[⟨"user", "а"⟩, ⟨"user", "эй"⟩], 100⟩)], apiErrorReply, true⟩ :=
  (failed_completion_keeps_budget_appends_user_turn
    [(7, ⟨[⟨"user", "а"⟩], 100⟩)] 7 "эй" .rateLimitError
    ⟨[⟨"user", "а"⟩], 100⟩ rfl).trans (by decide)
